import Mathlib

/-!
Containment operator: reconciliation state machine

A shallow embedding of `src/containment/operator_full.go`.

* The cluster (the API server behind `r.Get`, `r.Status().Update` and the
  `Clientset` calls made by the executors) is external to the repository; its
  behaviour is a parameter (`Cluster`) over which every theorem quantifies.
* The intent store is passed explicitly: `Option Containment` is the object
  stored under the reconciled key (`none`: no such object).
* A call of `Reconcile` yields an `Outcome`: the returned `ctrl.Result` and
  error, the executors invoked (in order), the status writes issued (in order)
  and the store after the call.
* The caller's `ctx` is handed on unchanged to every call and never inspected
  by `Reconcile` itself, so it shows only in what those calls return;
  `Cluster.BoundedByCtx` states how calls sharing a `ctx` are related.
* Logging has no effect on any of these and is left out.
-/

namespace ZeroDay

/-! ## Go values used by the reconciler -/

/-- Go `error` values, as far as the reconciler and its callers can tell them
apart: the `NotFound` API status, the two errors of a done `context.Context`
(`context.Canceled`, `context.DeadlineExceeded`), any other error with its
message, and an error that wraps another one under a message of its own (as
`*url.Error` does for the request a client had to give up). -/
inductive GoError where
  | notFound (msg : String)
  | canceled
  | deadlineExceeded
  | other (msg : String)
  | wrapped (msg : String) (cause : GoError)
  deriving DecidableEq, Repr

/-- The method `Error() string` of a Go error. -/
def GoError.Error : GoError → String
  | .notFound msg => msg
  | .canceled => "context canceled"
  | .deadlineExceeded => "context deadline exceeded"
  | .other msg => msg
  | .wrapped msg cause => msg ++ ": " ++ cause.Error

/-- Library function `apierrors.IsNotFound`, which looks through wrapping. -/
def GoError.isNotFound : GoError → Bool
  | .notFound _ => true
  | .wrapped _ cause => cause.isNotFound
  | _ => false

/-- Library function `client.IgnoreNotFound`: `nil` for `nil` and for a NotFound
error, the error itself otherwise. -/
def IgnoreNotFound : Option GoError → Option GoError
  | none => none
  | some e => if e.isNotFound then none else some e

/-- One second as a `time.Duration` (nanoseconds). -/
def Second : Nat := 1000000000

/-- Type `ctrl.Result`. -/
structure Result where
  Requeue : Bool := false
  RequeueAfter : Nat := 0
  deriving DecidableEq, Repr

/-! ## Containment CRD types (operator_full.go, lines 22-44) -/

/-- Type `ContainmentSpec`. `Confidence` is a `float64` decoded from the JSON
form of the object, hence finite; it is represented by its exact rational
value. -/
structure ContainmentSpec where
  AlertID : String
  Confidence : ℚ
  SuggestedAction : String
  DryRun : Bool
  Explanation : String
  ApprovalToken : String
  deriving DecidableEq

/-- Type `ContainmentStatus`. -/
structure ContainmentStatus where
  State : String
  AppliedAction : String
  Result : String
  LastUpdate : String
  deriving DecidableEq, Repr

/-- Type `Containment` (type and object metadata are not read by the
reconciler and are left out). -/
structure Containment where
  Spec : ContainmentSpec
  Status : ContainmentStatus
  deriving DecidableEq

/-- The `float64` constant that the literal `0.7` denotes in
`containment.Spec.Confidence < 0.7`: the double nearest to 7/10, which is
`0x3FE6666666666666` = 3152519739159347 / 2^52. -/
def confidenceThreshold : ℚ := 3152519739159347 / 4503599627370496

/-! ## The cluster -/

/-- The `networkingv1.NetworkPolicy` object built by `IsolateWithNetworkPolicy`. -/
structure NetworkPolicy where
  Name : String
  Namespace : String
  MatchLabels : List (String × String)
  Ingress : List Unit
  Egress : List Unit
  PolicyTypes : List String
  deriving DecidableEq, Repr

/-- Behaviour of the cluster during one call of `Reconcile`.

* `getErr`: the error with which the read of the object fails, if it fails for
  a reason other than the object being absent;
* `createNetworkPolicy ns policy`: result of
  `Clientset.NetworkingV1().NetworkPolicies(ns).Create`;
* `deletePod ns pod gracePeriod`: result of `Clientset.CoreV1().Pods(ns).Delete`;
* `statusUpdate obj`: result of `r.Status().Update(ctx, obj)` (`none`: the write
  succeeds);
* `now`: `time.Now().UTC().Format(time.RFC3339)`. -/
structure Cluster where
  getErr : Option GoError
  createNetworkPolicy : String → NetworkPolicy → Option GoError
  deletePod : String → String → Nat → Option GoError
  statusUpdate : Containment → Option GoError
  now : String

/-- Call `r.Get(ctx, req.NamespacedName, &containment)`. -/
def Get (k : Cluster) (store : Option Containment) : Except GoError Containment :=
  match k.getErr with
  | some e => .error e
  | none =>
    match store with
    | some c => .ok c
    | none => .error (.notFound "not found")

/-- An invocation of one of the three executors, with its arguments
`(pod, ns)`. -/
inductive ExecutorCall where
  | IsolateWithNetworkPolicy (pod ns : String)
  | EvictPod (pod ns : String)
  | BlackholeViaIstio (pod ns : String)
  deriving DecidableEq, Repr

/-- What a call of `Reconcile` returns and does. -/
structure Outcome where
  result : Result
  err : Option GoError
  calls : List ExecutorCall
  writes : List Containment
  store : Option Containment

/-! ## The reconciler (operator_full.go, lines 54-178) -/

/-- Function `IsolateWithNetworkPolicy`: creates a deny-all NetworkPolicy. -/
def IsolateWithNetworkPolicy (k : Cluster) (pod ns : String) : Option GoError :=
  let policy : NetworkPolicy :=
    { Name := "isolate-" ++ pod
      Namespace := ns
      MatchLabels := [("run", pod)]
      Ingress := []
      Egress := []
      PolicyTypes := ["Ingress", "Egress"] }
  k.createNetworkPolicy ns policy

/-- Function `EvictPod`: deletes the pod with a grace period of 30 seconds. -/
def EvictPod (k : Cluster) (pod ns : String) : Option GoError :=
  let gracePeriod : Nat := 30
  k.deletePod ns pod gracePeriod

/-- Function `BlackholeViaIstio` (a placeholder in the source): logs and
returns `nil`. -/
def BlackholeViaIstio (_k : Cluster) (_pod _ns : String) : Option GoError :=
  none

/-- Function `extractPodNamespace`: returns a fixed pair. -/
def extractPodNamespace (_alertID : String) : String × String :=
  ("unknown", "default")

/-- Function `updateStatus`: sets `State`, `Result` and `LastUpdate` on the
object and writes its status. Returns the object as written, the error of the
write and the store after it: a successful write replaces the stored status. -/
def updateStatus (k : Cluster) (store : Option Containment) (containment : Containment)
    (state result : String) : Containment × Option GoError × Option Containment :=
  let containment : Containment :=
    { containment with
      Status := { containment.Status with
                  State := state, Result := result, LastUpdate := k.now } }
  match k.statusUpdate containment with
  | some e => (containment, some e, store)
  | none => (containment, none, store.map fun s => { s with Status := containment.Status })

/-- The statement `return res, r.updateStatus(ctx, &containment, state, result)`
after the executor invocations `calls`. -/
def returnUpdateStatus (k : Cluster) (store : Option Containment) (containment : Containment)
    (calls : List ExecutorCall) (res : Result) (state result : String) : Outcome :=
  let w := updateStatus k store containment state result
  { result := res, err := w.2.1, calls := calls, writes := [w.1], store := w.2.2 }

/-- The end of `Reconcile` (lines 117-123), after the `switch` has set `err`
and `action`. -/
def finishDispatch (k : Cluster) (store : Option Containment) (containment : Containment)
    (calls : List ExecutorCall) (err : Option GoError) (action : String) : Outcome :=
  match err with
  | some e =>
    returnUpdateStatus k store containment calls {} "failed" ("error: " ++ e.Error)
  | none =>
    returnUpdateStatus k store containment calls {} "applied" action

/-- Function `ContainmentReconciler.Reconcile`. -/
def Reconcile (k : Cluster) (store : Option Containment) : Outcome :=
  match Get k store with
  | .error err =>
    { result := {}, err := IgnoreNotFound (some err), calls := [], writes := [], store := store }
  | .ok containment =>
    if containment.Status.State = "applied" ∨ containment.Status.State = "failed" then
      { result := {}, err := none, calls := [], writes := [], store := store }
    else if containment.Spec.Confidence < confidenceThreshold then
      returnUpdateStatus k store containment [] {} "pending" "confidence_too_low"
    else if containment.Spec.DryRun = false ∧ containment.Spec.ApprovalToken = "" then
      returnUpdateStatus k store containment [] { RequeueAfter := 30 * Second }
        "pending" "awaiting_approval"
    else
      let (pod, ns) := extractPodNamespace containment.Spec.AlertID
      if containment.Spec.SuggestedAction = "isolate_pod" then
        if containment.Spec.DryRun then
          finishDispatch k store containment [] none "isolate_pod_dryrun"
        else
          finishDispatch k store containment [.IsolateWithNetworkPolicy pod ns]
            (IsolateWithNetworkPolicy k pod ns) "isolate_pod"
      else if containment.Spec.SuggestedAction = "evict_pod" then
        if containment.Spec.DryRun then
          finishDispatch k store containment [] none "evict_pod_dryrun"
        else
          finishDispatch k store containment [.EvictPod pod ns]
            (EvictPod k pod ns) "evict_pod"
      else if containment.Spec.SuggestedAction = "blackhole_traffic" then
        if containment.Spec.DryRun then
          finishDispatch k store containment [] none "blackhole_traffic_dryrun"
        else
          finishDispatch k store containment [.BlackholeViaIstio pod ns]
            (BlackholeViaIstio k pod ns) "blackhole_traffic"
      else
        returnUpdateStatus k store containment [] {} "failed" "unknown_action"

/-! ## Runs: reconciliations interleaved with changes of the Spec -/

/-- What happens to the intent in the course of a run: a call of `Reconcile`,
during which the cluster behaves as `k`, or a change, from outside, of its Spec
(its Status is written by the reconciler only). -/
inductive Event where
  | reconcile (k : Cluster)
  | specChange (spec : ContainmentSpec)

/-- One event, on the stored object and the executor invocations made so far. -/
def step (s : Option Containment × List ExecutorCall) :
    Event → Option Containment × List ExecutorCall
  | .reconcile k => ((Reconcile k s.1).store, s.2 ++ (Reconcile k s.1).calls)
  | .specChange spec => (s.1.map fun c => { c with Spec := spec }, s.2)

/-- The stored object and all executor invocations after the events `evs`,
starting from the store `store`. -/
def run (store : Option Containment) (evs : List Event) :
    Option Containment × List ExecutorCall :=
  evs.foldl step (store, [])

/-- The store holds an object in state "applied" or "failed". -/
def Terminal (store : Option Containment) : Prop :=
  ∃ d : Containment, store = some d ∧
    (d.Status.State = "applied" ∨ d.Status.State = "failed")

/-! ## The caller's context -/

/-- A cluster in which every call succeeds. -/
def okCluster : Cluster :=
  { getErr := none
    createNetworkPolicy := fun _ _ => none
    deletePod := fun _ _ _ => none
    statusUpdate := fun _ => none
    now := "2024-05-01T12:00:00Z" }

/-- A cluster in which deleting a pod fails with "quota exceeded". -/
def quotaCluster : Cluster :=
  { okCluster with deletePod := fun _ _ _ => some (.other "quota exceeded") }

/-- A status never written by the reconciler. -/
def freshStatus : ContainmentStatus :=
  { State := "", AppliedAction := "", Result := "", LastUpdate := "" }

/-- An approved, non-dry-run eviction with confidence 0.9. -/
def evictIntent : Containment :=
  { Spec := { AlertID := "alert-svc-42_prod", Confidence := 9 / 10,
              SuggestedAction := "evict_pod", DryRun := false,
              Explanation := "", ApprovalToken := "tok-1" }
    Status := freshStatus }

/-- The dry run of `evictIntent`, without approval token. -/
def evictDryRunIntent : Containment :=
  { evictIntent with Spec := { evictIntent.Spec with DryRun := true, ApprovalToken := "" } }

/-- The intent `evictIntent` before approval. -/
def unapprovedIntent : Containment :=
  { evictIntent with Spec := { evictIntent.Spec with ApprovalToken := "" } }

/-- A non-dry-run, unapproved intent with confidence 0.5. -/
def lowConfidenceIntent : Containment :=
  { evictIntent with Spec := { evictIntent.Spec with Confidence := 1 / 2, ApprovalToken := "" } }

/-- An approved intent whose action is not one of the three known ones. -/
def unknownActionIntent : Containment :=
  { evictIntent with Spec := { evictIntent.Spec with SuggestedAction := "reboot_node" } }

/-- An intent already applied. -/
def appliedIntent : Containment :=
  { evictIntent with
    Status := { State := "applied", AppliedAction := "", Result := "evict_pod",
                LastUpdate := "2024-05-01T11:00:00Z" } }

/-! ## Auxiliary facts -/

/-- The value written by `updateStatus`. -/
theorem updateStatus_written (k : Cluster) (store : Option Containment) (c : Containment)
    (state result : String) :
    (updateStatus k store c state result).1 =
      { Spec := c.Spec
        Status := { State := state, AppliedAction := c.Status.AppliedAction,
                    Result := result, LastUpdate := k.now } } := by
  simp only [updateStatus]
  split <;> rfl

/-- A successful `Get` returns the stored object. -/
theorem Get_ok (k : Cluster) (store : Option Containment) (c : Containment)
    (h : Get k store = .ok c) : k.getErr = none ∧ store = some c := by
  unfold Get at h
  cases hg : k.getErr with
  | some e => simp [hg] at h
  | none =>
    cases store with
    | none => simp [hg] at h
    | some d =>
      simp only [hg, Except.ok.injEq] at h
      exact ⟨rfl, by rw [h]⟩

/-- What `return res, r.updateStatus(...)` returns and does, for an object that
was fetched from the store. -/
theorem returnUpdateStatus_spec (k : Cluster) (store : Option Containment) (c : Containment)
    (calls : List ExecutorCall) (res : Result) (state result : String)
    (hfound : Get k store = .ok c) :
    ∃ w : Containment,
      w = { Spec := c.Spec
            Status := { State := state, AppliedAction := c.Status.AppliedAction,
                        Result := result, LastUpdate := k.now } } ∧
      (returnUpdateStatus k store c calls res state result).result = res ∧
      (returnUpdateStatus k store c calls res state result).calls = calls ∧
      (returnUpdateStatus k store c calls res state result).writes = [w] ∧
      (returnUpdateStatus k store c calls res state result).err = k.statusUpdate w ∧
      (k.statusUpdate w = none →
        (returnUpdateStatus k store c calls res state result).store = some w) ∧
      (k.statusUpdate w ≠ none →
        (returnUpdateStatus k store c calls res state result).store = store) := by
  obtain ⟨_, hs⟩ := Get_ok k store c hfound
  subst hs
  refine ⟨_, rfl, rfl, rfl, ?_, ?_, ?_, ?_⟩
  · simp [returnUpdateStatus, updateStatus_written]
  · simp only [returnUpdateStatus, updateStatus]
    split <;> simp_all
  · intro h
    simp only [returnUpdateStatus, updateStatus]
    split <;> simp_all
  · intro h
    simp only [returnUpdateStatus, updateStatus]
    split <;> simp_all

/-- Branch of `Reconcile` for an object in a terminal state (lines 63-66). -/
theorem Reconcile_of_terminal (k : Cluster) (store : Option Containment) (c : Containment)
    (hfound : Get k store = .ok c)
    (hterm : c.Status.State = "applied" ∨ c.Status.State = "failed") :
    Reconcile k store =
      { result := {}, err := none, calls := [], writes := [], store := store } := by
  unfold Reconcile
  rw [hfound]
  simp only [if_pos hterm]

/-- Branch of `Reconcile` below the confidence threshold (lines 70-74). -/
theorem Reconcile_of_lowConfidence (k : Cluster) (store : Option Containment) (c : Containment)
    (hfound : Get k store = .ok c)
    (hnt : ¬ (c.Status.State = "applied" ∨ c.Status.State = "failed"))
    (hconf : c.Spec.Confidence < confidenceThreshold) :
    Reconcile k store =
      returnUpdateStatus k store c [] {} "pending" "confidence_too_low" := by
  unfold Reconcile
  rw [hfound]
  simp only [if_neg hnt, if_pos hconf]

/-- Branch of `Reconcile` for a non-dry-run object without approval token
(lines 76-80). -/
theorem Reconcile_of_unapproved (k : Cluster) (store : Option Containment) (c : Containment)
    (hfound : Get k store = .ok c)
    (hnt : ¬ (c.Status.State = "applied" ∨ c.Status.State = "failed"))
    (hconf : ¬ c.Spec.Confidence < confidenceThreshold)
    (hgate : c.Spec.DryRun = false ∧ c.Spec.ApprovalToken = "") :
    Reconcile k store =
      returnUpdateStatus k store c [] { RequeueAfter := 30 * Second }
        "pending" "awaiting_approval" := by
  unfold Reconcile
  rw [hfound]
  simp only [if_neg hnt, if_neg hconf, if_pos hgate]

/-- The `switch` of `Reconcile` (lines 82-123), reached once gating has passed. -/
theorem Reconcile_of_gated (k : Cluster) (store : Option Containment) (c : Containment)
    (hfound : Get k store = .ok c)
    (hnt : ¬ (c.Status.State = "applied" ∨ c.Status.State = "failed"))
    (hconf : ¬ c.Spec.Confidence < confidenceThreshold)
    (hgate : ¬ (c.Spec.DryRun = false ∧ c.Spec.ApprovalToken = "")) :
    Reconcile k store =
      if c.Spec.SuggestedAction = "isolate_pod" then
        if c.Spec.DryRun then
          finishDispatch k store c [] none "isolate_pod_dryrun"
        else
          finishDispatch k store c
            [.IsolateWithNetworkPolicy (extractPodNamespace c.Spec.AlertID).1
              (extractPodNamespace c.Spec.AlertID).2]
            (IsolateWithNetworkPolicy k (extractPodNamespace c.Spec.AlertID).1
              (extractPodNamespace c.Spec.AlertID).2) "isolate_pod"
      else if c.Spec.SuggestedAction = "evict_pod" then
        if c.Spec.DryRun then
          finishDispatch k store c [] none "evict_pod_dryrun"
        else
          finishDispatch k store c
            [.EvictPod (extractPodNamespace c.Spec.AlertID).1
              (extractPodNamespace c.Spec.AlertID).2]
            (EvictPod k (extractPodNamespace c.Spec.AlertID).1
              (extractPodNamespace c.Spec.AlertID).2) "evict_pod"
      else if c.Spec.SuggestedAction = "blackhole_traffic" then
        if c.Spec.DryRun then
          finishDispatch k store c [] none "blackhole_traffic_dryrun"
        else
          finishDispatch k store c
            [.BlackholeViaIstio (extractPodNamespace c.Spec.AlertID).1
              (extractPodNamespace c.Spec.AlertID).2]
            (BlackholeViaIstio k (extractPodNamespace c.Spec.AlertID).1
              (extractPodNamespace c.Spec.AlertID).2) "blackhole_traffic"
      else
        returnUpdateStatus k store c [] {} "failed" "unknown_action" := by
  unfold Reconcile
  rw [hfound]
  simp only [if_neg hnt, if_neg hconf, if_neg hgate]

/-- The executor invocations recorded by `returnUpdateStatus` are those passed
to it. -/
theorem returnUpdateStatus_calls (k : Cluster) (store : Option Containment) (c : Containment)
    (calls : List ExecutorCall) (res : Result) (state result : String) :
    (returnUpdateStatus k store c calls res state result).calls = calls := rfl

/-- The executor invocations recorded by `finishDispatch` are those passed to
it. -/
theorem finishDispatch_calls (k : Cluster) (store : Option Containment) (c : Containment)
    (calls : List ExecutorCall) (err : Option GoError) (action : String) :
    (finishDispatch k store c calls err action).calls = calls := by
  cases err <;> rfl

/-- The executor invocations of a call of `Reconcile` on a fetched object, by
branch: none outside the dispatch of a known action without dry run, and the
single mapped executor there. -/
theorem Reconcile_calls (k : Cluster) (store : Option Containment) (c : Containment)
    (hfound : Get k store = .ok c) :
    (Reconcile k store).calls =
      if c.Status.State = "applied" ∨ c.Status.State = "failed" then []
      else if c.Spec.Confidence < confidenceThreshold then []
      else if c.Spec.DryRun = false ∧ c.Spec.ApprovalToken = "" then []
      else if c.Spec.DryRun = true then []
      else if c.Spec.SuggestedAction = "isolate_pod" then
        [.IsolateWithNetworkPolicy (extractPodNamespace c.Spec.AlertID).1
          (extractPodNamespace c.Spec.AlertID).2]
      else if c.Spec.SuggestedAction = "evict_pod" then
        [.EvictPod (extractPodNamespace c.Spec.AlertID).1
          (extractPodNamespace c.Spec.AlertID).2]
      else if c.Spec.SuggestedAction = "blackhole_traffic" then
        [.BlackholeViaIstio (extractPodNamespace c.Spec.AlertID).1
          (extractPodNamespace c.Spec.AlertID).2]
      else [] := by
  by_cases hterm : c.Status.State = "applied" ∨ c.Status.State = "failed"
  · rw [Reconcile_of_terminal k store c hfound hterm, if_pos hterm]
  by_cases hconf : c.Spec.Confidence < confidenceThreshold
  · rw [Reconcile_of_lowConfidence k store c hfound hterm hconf, if_neg hterm, if_pos hconf]
    rfl
  by_cases hgate : c.Spec.DryRun = false ∧ c.Spec.ApprovalToken = ""
  · rw [Reconcile_of_unapproved k store c hfound hterm hconf hgate, if_neg hterm,
      if_neg hconf, if_pos hgate]
    rfl
  rw [Reconcile_of_gated k store c hfound hterm hconf hgate, if_neg hterm, if_neg hconf,
    if_neg hgate]
  by_cases hdry : c.Spec.DryRun = true
  · simp only [hdry, if_true]
    split_ifs <;> rfl
  · simp only [hdry, if_false, Bool.false_eq_true]
    split_ifs <;> first | rfl | exact finishDispatch_calls _ _ _ _ _ _

/-- Dry run of a known action: no executor runs and "applied" is written with
the suffixed action name (lines 89-91, 97-99, 105-107, 122-123). -/
theorem Reconcile_of_dryRun (k : Cluster) (store : Option Containment) (c : Containment)
    (hfound : Get k store = .ok c)
    (hnt : ¬ (c.Status.State = "applied" ∨ c.Status.State = "failed"))
    (hconf : ¬ c.Spec.Confidence < confidenceThreshold)
    (hdry : c.Spec.DryRun = true)
    (hact : c.Spec.SuggestedAction = "isolate_pod" ∨ c.Spec.SuggestedAction = "evict_pod" ∨
      c.Spec.SuggestedAction = "blackhole_traffic") :
    Reconcile k store =
      returnUpdateStatus k store c [] {} "applied" (c.Spec.SuggestedAction ++ "_dryrun") := by
  rw [Reconcile_of_gated k store c hfound hnt hconf (by simp [hdry])]
  rcases hact with h | h | h <;> simp only [h, hdry, if_true] <;> rfl

/-- Execution of a known action: the mapped executor runs and its error decides
what is written (lines 92-94, 100-102, 108-110, 117-123). -/
theorem Reconcile_of_executed (k : Cluster) (store : Option Containment) (c : Containment)
    (hfound : Get k store = .ok c)
    (hnt : ¬ (c.Status.State = "applied" ∨ c.Status.State = "failed"))
    (hconf : ¬ c.Spec.Confidence < confidenceThreshold)
    (hdry : c.Spec.DryRun = false)
    (htok : c.Spec.ApprovalToken ≠ "") :
    (c.Spec.SuggestedAction = "isolate_pod" →
      Reconcile k store =
        finishDispatch k store c
          [.IsolateWithNetworkPolicy (extractPodNamespace c.Spec.AlertID).1
            (extractPodNamespace c.Spec.AlertID).2]
          (IsolateWithNetworkPolicy k (extractPodNamespace c.Spec.AlertID).1
            (extractPodNamespace c.Spec.AlertID).2) c.Spec.SuggestedAction) ∧
    (c.Spec.SuggestedAction = "evict_pod" →
      Reconcile k store =
        finishDispatch k store c
          [.EvictPod (extractPodNamespace c.Spec.AlertID).1
            (extractPodNamespace c.Spec.AlertID).2]
          (EvictPod k (extractPodNamespace c.Spec.AlertID).1
            (extractPodNamespace c.Spec.AlertID).2) c.Spec.SuggestedAction) ∧
    (c.Spec.SuggestedAction = "blackhole_traffic" →
      Reconcile k store =
        finishDispatch k store c
          [.BlackholeViaIstio (extractPodNamespace c.Spec.AlertID).1
            (extractPodNamespace c.Spec.AlertID).2]
          (BlackholeViaIstio k (extractPodNamespace c.Spec.AlertID).1
            (extractPodNamespace c.Spec.AlertID).2) c.Spec.SuggestedAction) := by
  rw [Reconcile_of_gated k store c hfound hnt hconf (by simp [htok])]
  refine ⟨?_, ?_, ?_⟩ <;> intro h <;> simp [h, hdry]

/-- The end of `Reconcile` when the executor returned the error `e`. -/
theorem finishDispatch_error (k : Cluster) (store : Option Containment) (c : Containment)
    (calls : List ExecutorCall) (e : GoError) (action : String) :
    finishDispatch k store c calls (some e) action =
      returnUpdateStatus k store c calls {} "failed" ("error: " ++ e.Error) := rfl

/-- The end of `Reconcile` when no executor ran or it returned `nil`. -/
theorem finishDispatch_ok (k : Cluster) (store : Option Containment) (c : Containment)
    (calls : List ExecutorCall) (action : String) :
    finishDispatch k store c calls none action =
      returnUpdateStatus k store c calls {} "applied" action := rfl

/-- A dispatch that succeeds (dry run of a known action, or an approved known
action whose executor returns `nil`) ends in writing "applied" with the action
name, suffixed by "_dryrun" in a dry run. -/
theorem Reconcile_of_success (k : Cluster) (store : Option Containment) (c : Containment)
    (hfound : Get k store = .ok c)
    (hnt : c.Status.State ≠ "applied" ∧ c.Status.State ≠ "failed")
    (hconf : confidenceThreshold ≤ c.Spec.Confidence)
    (hok : (c.Spec.DryRun = true ∧
        (c.Spec.SuggestedAction = "isolate_pod" ∨ c.Spec.SuggestedAction = "evict_pod" ∨
          c.Spec.SuggestedAction = "blackhole_traffic")) ∨
      (c.Spec.DryRun = false ∧ c.Spec.ApprovalToken ≠ "" ∧
        ((c.Spec.SuggestedAction = "isolate_pod" ∧
            IsolateWithNetworkPolicy k (extractPodNamespace c.Spec.AlertID).1
              (extractPodNamespace c.Spec.AlertID).2 = none) ∨
          (c.Spec.SuggestedAction = "evict_pod" ∧
            EvictPod k (extractPodNamespace c.Spec.AlertID).1
              (extractPodNamespace c.Spec.AlertID).2 = none) ∨
          (c.Spec.SuggestedAction = "blackhole_traffic" ∧
            BlackholeViaIstio k (extractPodNamespace c.Spec.AlertID).1
              (extractPodNamespace c.Spec.AlertID).2 = none)))) :
    ∃ calls : List ExecutorCall,
      Reconcile k store =
        returnUpdateStatus k store c calls {} "applied"
          (if c.Spec.DryRun = true then c.Spec.SuggestedAction ++ "_dryrun"
            else c.Spec.SuggestedAction) := by
  have hnt2 : ¬ (c.Status.State = "applied" ∨ c.Status.State = "failed") := by tauto
  have hconf2 : ¬ c.Spec.Confidence < confidenceThreshold := not_lt.mpr hconf
  rcases hok with ⟨hdry, hact⟩ | ⟨hdry, htok, hex⟩
  · refine ⟨[], ?_⟩
    rw [Reconcile_of_dryRun k store c hfound hnt2 hconf2 hdry hact, if_pos hdry]
  · obtain ⟨h1, h2, h3⟩ := Reconcile_of_executed k store c hfound hnt2 hconf2 hdry htok
    have hd : ¬ c.Spec.DryRun = true := by simp [hdry]
    rw [if_neg hd]
    rcases hex with ⟨ha, he⟩ | ⟨ha, he⟩ | ⟨ha, he⟩
    · exact ⟨_, by rw [h1 ha, he, finishDispatch_ok]⟩
    · exact ⟨_, by rw [h2 ha, he, finishDispatch_ok]⟩
    · exact ⟨_, by rw [h3 ha, he, finishDispatch_ok]⟩

/-- An approved, non-dry-run known action whose executor returns the error `e`
ends in writing "failed" with "error: " followed by the message of `e`. -/
theorem Reconcile_of_failure (k : Cluster) (store : Option Containment) (c : Containment)
    (e : GoError)
    (hfound : Get k store = .ok c)
    (hnt : c.Status.State ≠ "applied" ∧ c.Status.State ≠ "failed")
    (hconf : confidenceThreshold ≤ c.Spec.Confidence)
    (hdry : c.Spec.DryRun = false)
    (htok : c.Spec.ApprovalToken ≠ "")
    (hex : (c.Spec.SuggestedAction = "isolate_pod" ∧
          IsolateWithNetworkPolicy k (extractPodNamespace c.Spec.AlertID).1
            (extractPodNamespace c.Spec.AlertID).2 = some e) ∨
        (c.Spec.SuggestedAction = "evict_pod" ∧
          EvictPod k (extractPodNamespace c.Spec.AlertID).1
            (extractPodNamespace c.Spec.AlertID).2 = some e) ∨
        (c.Spec.SuggestedAction = "blackhole_traffic" ∧
          BlackholeViaIstio k (extractPodNamespace c.Spec.AlertID).1
            (extractPodNamespace c.Spec.AlertID).2 = some e)) :
    ∃ call : ExecutorCall,
      Reconcile k store =
        returnUpdateStatus k store c [call] {} "failed" ("error: " ++ e.Error) := by
  have hnt2 : ¬ (c.Status.State = "applied" ∨ c.Status.State = "failed") := by tauto
  have hconf2 : ¬ c.Spec.Confidence < confidenceThreshold := not_lt.mpr hconf
  obtain ⟨h1, h2, h3⟩ := Reconcile_of_executed k store c hfound hnt2 hconf2 hdry htok
  rcases hex with ⟨ha, he⟩ | ⟨ha, he⟩ | ⟨ha, he⟩
  · exact ⟨_, by rw [h1 ha, he, finishDispatch_error]⟩
  · exact ⟨_, by rw [h2 ha, he, finishDispatch_error]⟩
  · exact ⟨_, by rw [h3 ha, he, finishDispatch_error]⟩

/-- On a store in a terminal state `Reconcile` does nothing, whatever the
cluster does. -/
theorem Reconcile_noop_of_Terminal (k : Cluster) (store : Option Containment)
    (h : Terminal store) :
    (Reconcile k store).calls = [] ∧ (Reconcile k store).writes = [] ∧
      (Reconcile k store).store = store := by
  obtain ⟨d, hd, hterm⟩ := h
  cases hG : Get k store with
  | error e =>
    unfold Reconcile
    rw [hG]
    exact ⟨rfl, rfl, rfl⟩
  | ok c =>
    have hc : store = some c := (Get_ok k store c hG).2
    have hcd : c = d := by
      rw [hd] at hc
      exact (Option.some.inj hc).symm
    subst hcd
    rw [Reconcile_of_terminal k store c hG hterm]
    exact ⟨rfl, rfl, rfl⟩

/-- No event of a run leaves a terminal state, changes the status, or adds an
executor invocation, once the stored state is terminal. -/
theorem step_of_Terminal (s : Option Containment × List ExecutorCall) (ev : Event)
    (h : Terminal s.1) :
    Terminal (step s ev).1 ∧ (step s ev).2 = s.2 ∧
      (step s ev).1.map (fun c => c.Status) = s.1.map (fun c => c.Status) := by
  cases ev with
  | reconcile k =>
    obtain ⟨h1, _, h3⟩ := Reconcile_noop_of_Terminal k s.1 h
    have hs : step s (.reconcile k) = (s.1, s.2) := by
      simp only [step, h1, h3, List.append_nil]
    rw [hs]
    exact ⟨h, rfl, rfl⟩
  | specChange spec =>
    obtain ⟨d, hd, hterm⟩ := h
    refine ⟨⟨{ d with Spec := spec }, ?_, hterm⟩, rfl, ?_⟩
    · simp [step, hd]
    · simp [step, hd]

/-- A run from a terminal state stays terminal, with the same status and
without any further executor invocation. -/
theorem foldl_step_of_Terminal (evs : List Event) :
    ∀ s : Option Containment × List ExecutorCall, Terminal s.1 →
      Terminal (evs.foldl step s).1 ∧ (evs.foldl step s).2 = s.2 ∧
        (evs.foldl step s).1.map (fun c => c.Status) = s.1.map (fun c => c.Status) := by
  induction evs with
  | nil =>
    intro s h
    exact ⟨h, rfl, rfl⟩
  | cons ev evs ih =>
    intro s h
    obtain ⟨h1, h2, h3⟩ := step_of_Terminal s ev h
    obtain ⟨g1, g2, g3⟩ := ih (step s ev) h1
    simp only [List.foldl_cons]
    exact ⟨g1, g2.trans h2, g3.trans h3⟩

/-- A call of `Reconcile` invokes at most one executor. -/
theorem Reconcile_calls_length_le_one (k : Cluster) (store : Option Containment) :
    (Reconcile k store).calls.length ≤ 1 := by
  cases hG : Get k store with
  | error e =>
    unfold Reconcile
    rw [hG]
    exact Nat.zero_le 1
  | ok c =>
    rw [Reconcile_calls k store c hG]
    split_ifs <;> simp

/-- When the status write succeeds, a call of `Reconcile` that invokes an
executor leaves the store in a terminal state. -/
theorem Reconcile_Terminal_of_calls (k : Cluster) (store : Option Containment)
    (hw : ∀ x : Containment, k.statusUpdate x = none)
    (hne : (Reconcile k store).calls ≠ []) :
    Terminal (Reconcile k store).store := by
  cases hG : Get k store with
  | error e =>
    exfalso
    apply hne
    unfold Reconcile
    rw [hG]
  | ok c =>
    have hc := Reconcile_calls k store c hG
    by_cases hterm : c.Status.State = "applied" ∨ c.Status.State = "failed"
    · exact absurd (by rw [hc, if_pos hterm]) hne
    by_cases hconf : c.Spec.Confidence < confidenceThreshold
    · exact absurd (by rw [hc, if_neg hterm, if_pos hconf]) hne
    by_cases hgate : c.Spec.DryRun = false ∧ c.Spec.ApprovalToken = ""
    · exact absurd (by rw [hc, if_neg hterm, if_neg hconf, if_pos hgate]) hne
    by_cases hdry : c.Spec.DryRun = true
    · exact absurd (by rw [hc, if_neg hterm, if_neg hconf, if_neg hgate, if_pos hdry]) hne
    by_cases hact : c.Spec.SuggestedAction = "isolate_pod" ∨
        c.Spec.SuggestedAction = "evict_pod" ∨ c.Spec.SuggestedAction = "blackhole_traffic"
    · have hdry2 : c.Spec.DryRun = false := by simpa using hdry
      have htok : c.Spec.ApprovalToken ≠ "" := fun h => hgate ⟨hdry2, h⟩
      obtain ⟨h1, h2, h3⟩ := Reconcile_of_executed k store c hG hterm hconf hdry2 htok
      have key : ∀ (calls : List ExecutorCall) (err : Option GoError) (action : String),
          Terminal (finishDispatch k store c calls err action).store := by
        intro calls err action
        cases err with
        | none =>
          obtain ⟨w, hwv, _, _, _, _, hst, _⟩ :=
            returnUpdateStatus_spec k store c calls {} "applied" action hG
          rw [finishDispatch_ok, hst (hw w)]
          exact ⟨w, rfl, Or.inl (by rw [hwv])⟩
        | some e =>
          obtain ⟨w, hwv, _, _, _, _, hst, _⟩ :=
            returnUpdateStatus_spec k store c calls {} "failed" ("error: " ++ e.Error) hG
          rw [finishDispatch_error, hst (hw w)]
          exact ⟨w, rfl, Or.inr (by rw [hwv])⟩
      rcases hact with ha | ha | ha
      · rw [h1 ha]; exact key _ _ _
      · rw [h2 ha]; exact key _ _ _
      · rw [h3 ha]; exact key _ _ _
    · exfalso
      apply hne
      rw [hc, if_neg hterm, if_neg hconf, if_neg hgate, if_neg hdry]
      have ha1 : ¬ c.Spec.SuggestedAction = "isolate_pod" := fun h => hact (Or.inl h)
      have ha2 : ¬ c.Spec.SuggestedAction = "evict_pod" := fun h => hact (Or.inr (Or.inl h))
      have ha3 : ¬ c.Spec.SuggestedAction = "blackhole_traffic" :=
        fun h => hact (Or.inr (Or.inr h))
      rw [if_neg ha1, if_neg ha2, if_neg ha3]

/-- In a run all of whose status writes succeed, at most one executor is
invoked. -/
theorem run_calls_length_le_one (evs : List Event) :
    ∀ store : Option Containment,
      (∀ k : Cluster, Event.reconcile k ∈ evs → ∀ x : Containment, k.statusUpdate x = none) →
      (run store evs).2.length ≤ 1 := by
  induction evs with
  | nil =>
    intro store _
    simp [run]
  | cons ev evs ih =>
    intro store hw
    have hw2 : ∀ k : Cluster, Event.reconcile k ∈ evs →
        ∀ x : Containment, k.statusUpdate x = none :=
      fun k hk => hw k (List.mem_cons_of_mem _ hk)
    cases ev with
    | specChange spec =>
      simp only [run, List.foldl_cons, step]
      exact ih _ hw2
    | reconcile k =>
      simp only [run, List.foldl_cons, step, List.nil_append]
      by_cases hne : (Reconcile k store).calls = []
      · rw [hne]
        exact ih _ hw2
      · have hT := Reconcile_Terminal_of_calls k store (hw k (List.mem_cons_self _ _)) hne
        obtain ⟨_, h2, _⟩ :=
          foldl_step_of_Terminal evs ((Reconcile k store).store, (Reconcile k store).calls) hT
        rw [h2]
        exact Reconcile_calls_length_le_one k store

/-! ## Claims -/

/-- C2. For every fetched intent whose stored `Status.State` is "applied" or
"failed", whatever its Spec fields are, `Reconcile` invokes no executor, issues
no status write, leaves the stored object (so `State`, `AppliedAction`,
`Result` and `LastUpdate`) unchanged, and returns the empty result (no requeue)
with a nil error. -/
theorem reconcile_terminal_noop (k : Cluster) (store : Option Containment) (c : Containment)
    (hfound : Get k store = .ok c)
    (hterm : c.Status.State = "applied" ∨ c.Status.State = "failed") :
    (Reconcile k store).calls = [] ∧
    (Reconcile k store).writes = [] ∧
    (Reconcile k store).store = store ∧
    (Reconcile k store).store = some c ∧
    (Reconcile k store).result = { Requeue := false, RequeueAfter := 0 } ∧
    (Reconcile k store).err = none := by
  rw [Reconcile_of_terminal k store c hfound hterm]
  exact ⟨rfl, rfl, rfl, (Get_ok k store c hfound).2, rfl, rfl⟩

/-- Witness of C2: an already applied intent. -/
theorem reconcile_terminal_noop_witness :
    (Reconcile okCluster (some appliedIntent)).calls = [] ∧
    (Reconcile okCluster (some appliedIntent)).writes = [] ∧
    (Reconcile okCluster (some appliedIntent)).store = some appliedIntent ∧
    (Reconcile okCluster (some appliedIntent)).store = some appliedIntent ∧
    (Reconcile okCluster (some appliedIntent)).result = { Requeue := false, RequeueAfter := 0 } ∧
    (Reconcile okCluster (some appliedIntent)).err = none :=
  reconcile_terminal_noop okCluster (some appliedIntent) appliedIntent rfl (Or.inl rfl)

/-- C3. For every fetched intent that is not in a terminal state and has
Confidence >= 0.7, if DryRun is false and ApprovalToken is empty, then whatever
SuggestedAction is, `Reconcile` invokes no executor, issues exactly one status
write, of the fetched object with State "pending", Result "awaiting_approval"
and LastUpdate the current time, and returns a result requesting redelivery
after exactly 30 seconds together with the error of that write; when the write
succeeds the error is nil and the written object is the stored one. -/
theorem reconcile_awaiting_approval (k : Cluster) (store : Option Containment)
    (c : Containment)
    (hfound : Get k store = .ok c)
    (hnt : c.Status.State ≠ "applied" ∧ c.Status.State ≠ "failed")
    (hconf : confidenceThreshold ≤ c.Spec.Confidence)
    (hdry : c.Spec.DryRun = false)
    (htok : c.Spec.ApprovalToken = "") :
    ∃ w : Containment,
      (Reconcile k store).writes = [w] ∧
      w.Spec = c.Spec ∧
      w.Status.State = "pending" ∧
      w.Status.Result = "awaiting_approval" ∧
      w.Status.AppliedAction = c.Status.AppliedAction ∧
      w.Status.LastUpdate = k.now ∧
      (Reconcile k store).calls = [] ∧
      (Reconcile k store).result = { Requeue := false, RequeueAfter := 30000000000 } ∧
      (Reconcile k store).result.RequeueAfter = 30 * Second ∧
      (Reconcile k store).err = k.statusUpdate w ∧
      (k.statusUpdate w = none →
        (Reconcile k store).err = none ∧ (Reconcile k store).store = some w) := by
  rw [Reconcile_of_unapproved k store c hfound (by tauto) (not_lt.mpr hconf) ⟨hdry, htok⟩]
  obtain ⟨w, hw, hres, hcalls, hwr, herr, hst, _⟩ :=
    returnUpdateStatus_spec k store c [] { RequeueAfter := 30 * Second }
      "pending" "awaiting_approval" hfound
  refine ⟨w, hwr, ?_, ?_, ?_, ?_, ?_, hcalls, ?_, ?_, herr, ?_⟩
  · rw [hw]
  · rw [hw]
  · rw [hw]
  · rw [hw]
  · rw [hw]
  · rw [hres]; rfl
  · rw [hres]
  · intro h
    exact ⟨herr.trans h, hst h⟩

/-- Witness of C3: the eviction intent before approval, whose write succeeds. -/
theorem reconcile_awaiting_approval_witness :
    ∃ w : Containment,
      (Reconcile okCluster (some unapprovedIntent)).writes = [w] ∧
      w.Spec = unapprovedIntent.Spec ∧
      w.Status.State = "pending" ∧
      w.Status.Result = "awaiting_approval" ∧
      w.Status.AppliedAction = unapprovedIntent.Status.AppliedAction ∧
      w.Status.LastUpdate = okCluster.now ∧
      (Reconcile okCluster (some unapprovedIntent)).calls = [] ∧
      (Reconcile okCluster (some unapprovedIntent)).result =
        { Requeue := false, RequeueAfter := 30000000000 } ∧
      (Reconcile okCluster (some unapprovedIntent)).result.RequeueAfter = 30 * Second ∧
      (Reconcile okCluster (some unapprovedIntent)).err = okCluster.statusUpdate w ∧
      (okCluster.statusUpdate w = none →
        (Reconcile okCluster (some unapprovedIntent)).err = none ∧
        (Reconcile okCluster (some unapprovedIntent)).store = some w) :=
  reconcile_awaiting_approval okCluster (some unapprovedIntent) unapprovedIntent rfl
    (by decide) (by norm_num [confidenceThreshold, unapprovedIntent, evictIntent]) rfl rfl

/-- C4. For every fetched intent that is not in a terminal state, if
Confidence < 0.7 then, whatever SuggestedAction, DryRun and ApprovalToken are
(so also for a non-dry-run intent without approval token), `Reconcile` invokes
no executor, issues exactly one status write, of the fetched object with State
"pending", Result "confidence_too_low" and LastUpdate the current time, and
returns the empty result (no requeue) together with the error of that write;
when the write succeeds the error is nil and the written object is the stored
one. -/
theorem reconcile_confidence_too_low (k : Cluster) (store : Option Containment)
    (c : Containment)
    (hfound : Get k store = .ok c)
    (hnt : c.Status.State ≠ "applied" ∧ c.Status.State ≠ "failed")
    (hconf : c.Spec.Confidence < confidenceThreshold) :
    ∃ w : Containment,
      (Reconcile k store).writes = [w] ∧
      w.Spec = c.Spec ∧
      w.Status.State = "pending" ∧
      w.Status.Result = "confidence_too_low" ∧
      w.Status.AppliedAction = c.Status.AppliedAction ∧
      w.Status.LastUpdate = k.now ∧
      (Reconcile k store).calls = [] ∧
      (Reconcile k store).result = { Requeue := false, RequeueAfter := 0 } ∧
      (Reconcile k store).err = k.statusUpdate w ∧
      (k.statusUpdate w = none →
        (Reconcile k store).err = none ∧ (Reconcile k store).store = some w) := by
  rw [Reconcile_of_lowConfidence k store c hfound (by tauto) hconf]
  obtain ⟨w, hw, hres, hcalls, hwr, herr, hst, _⟩ :=
    returnUpdateStatus_spec k store c [] {} "pending" "confidence_too_low" hfound
  refine ⟨w, hwr, ?_, ?_, ?_, ?_, ?_, hcalls, hres, herr, ?_⟩
  · rw [hw]
  · rw [hw]
  · rw [hw]
  · rw [hw]
  · rw [hw]
  · intro h
    exact ⟨herr.trans h, hst h⟩

/-- Witness of C4: a non-dry-run, unapproved intent with confidence 0.5 is not
requeued. -/
theorem reconcile_confidence_too_low_witness :
    ∃ w : Containment,
      (Reconcile okCluster (some lowConfidenceIntent)).writes = [w] ∧
      w.Spec = lowConfidenceIntent.Spec ∧
      w.Status.State = "pending" ∧
      w.Status.Result = "confidence_too_low" ∧
      w.Status.AppliedAction = lowConfidenceIntent.Status.AppliedAction ∧
      w.Status.LastUpdate = okCluster.now ∧
      (Reconcile okCluster (some lowConfidenceIntent)).calls = [] ∧
      (Reconcile okCluster (some lowConfidenceIntent)).result =
        { Requeue := false, RequeueAfter := 0 } ∧
      (Reconcile okCluster (some lowConfidenceIntent)).err = okCluster.statusUpdate w ∧
      (okCluster.statusUpdate w = none →
        (Reconcile okCluster (some lowConfidenceIntent)).err = none ∧
        (Reconcile okCluster (some lowConfidenceIntent)).store = some w) :=
  reconcile_confidence_too_low okCluster (some lowConfidenceIntent) lowConfidenceIntent rfl
    (by decide) (by norm_num [confidenceThreshold, lowConfidenceIntent, evictIntent])

/-- C1. For every store and every behaviour of the cluster, a call of
`Reconcile` invokes an executor if and only if the intent is fetched, its
`Status.State` is neither "applied" nor "failed", Confidence >= 0.7, DryRun is
false, ApprovalToken is non-empty and SuggestedAction is one of "isolate_pod",
"evict_pod", "blackhole_traffic"; it never invokes more than one; and when it
invokes one, the invocations are exactly one call of `IsolateWithNetworkPolicy`,
`EvictPod` or `BlackholeViaIstio` respectively, with the pair
`extractPodNamespace Spec.AlertID` as (pod, namespace). -/
theorem reconcile_invokes_executor_iff (k : Cluster) (store : Option Containment) :
    ((Reconcile k store).calls ≠ [] ↔
      ∃ c : Containment, Get k store = .ok c ∧
        c.Status.State ≠ "applied" ∧ c.Status.State ≠ "failed" ∧
        confidenceThreshold ≤ c.Spec.Confidence ∧
        c.Spec.DryRun = false ∧
        c.Spec.ApprovalToken ≠ "" ∧
        (c.Spec.SuggestedAction = "isolate_pod" ∨ c.Spec.SuggestedAction = "evict_pod" ∨
          c.Spec.SuggestedAction = "blackhole_traffic")) ∧
    (Reconcile k store).calls.length ≤ 1 ∧
    (∀ c : Containment, Get k store = .ok c → (Reconcile k store).calls ≠ [] →
      (c.Spec.SuggestedAction = "isolate_pod" →
        (Reconcile k store).calls =
          [.IsolateWithNetworkPolicy (extractPodNamespace c.Spec.AlertID).1
            (extractPodNamespace c.Spec.AlertID).2]) ∧
      (c.Spec.SuggestedAction = "evict_pod" →
        (Reconcile k store).calls =
          [.EvictPod (extractPodNamespace c.Spec.AlertID).1
            (extractPodNamespace c.Spec.AlertID).2]) ∧
      (c.Spec.SuggestedAction = "blackhole_traffic" →
        (Reconcile k store).calls =
          [.BlackholeViaIstio (extractPodNamespace c.Spec.AlertID).1
            (extractPodNamespace c.Spec.AlertID).2])) := by
  cases hG : Get k store with
  | error e =>
    have h0 : (Reconcile k store).calls = [] := by
      unfold Reconcile
      rw [hG]
    rw [h0]
    simp
  | ok c =>
    have hc := Reconcile_calls k store c hG
    refine ⟨?_, ?_, ?_⟩
    · constructor
      · intro hne
        refine ⟨c, rfl, ?_⟩
        rw [hc] at hne
        split_ifs at hne <;> simp_all
      · rintro ⟨d, hd, h1, h2, h3, h4, h5, h6⟩
        cases hd
        rw [hc]
        have h3 : ¬ c.Spec.Confidence < confidenceThreshold := not_lt.mpr h3
        rcases h6 with h6 | h6 | h6 <;> simp [h1, h2, h3, h4, h5, h6]
    · rw [hc]
      split_ifs <;> simp
    · intro d hd hne
      cases hd
      rw [hc] at hne ⊢
      split_ifs at hne ⊢ <;> simp_all

/-- Witness of C1: on the approved eviction intent exactly `EvictPod` is
invoked, once, on the pair that `extractPodNamespace` returns. -/
theorem reconcile_invokes_executor_iff_witness :
    (Reconcile okCluster (some evictIntent)).calls ≠ [] ∧
    (Reconcile okCluster (some evictIntent)).calls = [.EvictPod "unknown" "default"] :=
  have h := reconcile_invokes_executor_iff okCluster (some evictIntent)
  have hne : (Reconcile okCluster (some evictIntent)).calls ≠ [] :=
    h.1.mpr ⟨evictIntent, rfl, by decide, by decide,
      by norm_num [confidenceThreshold, evictIntent], rfl, by decide, Or.inr (Or.inl rfl)⟩
  ⟨hne, (h.2.2 evictIntent rfl hne).2.1 rfl⟩

/-- C5. For every fetched, non-terminal intent with Confidence >= 0.7 and a
known SuggestedAction a, if DryRun is true, or DryRun is false, ApprovalToken is
non-empty and the mapped executor returns no error, then `Reconcile` issues
exactly one status write, of the fetched object with State "applied" and Result
a ++ "_dryrun" when DryRun is true and exactly a when DryRun is false, and
returns the empty result (no requeue) with the error of that write; when the
write succeeds the error is nil and the written object is the stored one. -/
theorem reconcile_dispatch_success (k : Cluster) (store : Option Containment)
    (c : Containment)
    (hfound : Get k store = .ok c)
    (hnt : c.Status.State ≠ "applied" ∧ c.Status.State ≠ "failed")
    (hconf : confidenceThreshold ≤ c.Spec.Confidence)
    (hok : (c.Spec.DryRun = true ∧
        (c.Spec.SuggestedAction = "isolate_pod" ∨ c.Spec.SuggestedAction = "evict_pod" ∨
          c.Spec.SuggestedAction = "blackhole_traffic")) ∨
      (c.Spec.DryRun = false ∧ c.Spec.ApprovalToken ≠ "" ∧
        ((c.Spec.SuggestedAction = "isolate_pod" ∧
            IsolateWithNetworkPolicy k (extractPodNamespace c.Spec.AlertID).1
              (extractPodNamespace c.Spec.AlertID).2 = none) ∨
          (c.Spec.SuggestedAction = "evict_pod" ∧
            EvictPod k (extractPodNamespace c.Spec.AlertID).1
              (extractPodNamespace c.Spec.AlertID).2 = none) ∨
          (c.Spec.SuggestedAction = "blackhole_traffic" ∧
            BlackholeViaIstio k (extractPodNamespace c.Spec.AlertID).1
              (extractPodNamespace c.Spec.AlertID).2 = none)))) :
    ∃ w : Containment,
      (Reconcile k store).writes = [w] ∧
      w.Spec = c.Spec ∧
      w.Status.State = "applied" ∧
      w.Status.Result =
        (if c.Spec.DryRun = true then c.Spec.SuggestedAction ++ "_dryrun"
          else c.Spec.SuggestedAction) ∧
      w.Status.LastUpdate = k.now ∧
      (Reconcile k store).result = { Requeue := false, RequeueAfter := 0 } ∧
      (Reconcile k store).err = k.statusUpdate w ∧
      (k.statusUpdate w = none →
        (Reconcile k store).err = none ∧ (Reconcile k store).store = some w) := by
  obtain ⟨calls, hR⟩ := Reconcile_of_success k store c hfound hnt hconf hok
  rw [hR]
  obtain ⟨w, hw, hres, _, hwr, herr, hst, _⟩ :=
    returnUpdateStatus_spec k store c calls {} "applied"
      (if c.Spec.DryRun = true then c.Spec.SuggestedAction ++ "_dryrun"
        else c.Spec.SuggestedAction) hfound
  refine ⟨w, hwr, ?_, ?_, ?_, ?_, hres, herr, ?_⟩
  · rw [hw]
  · rw [hw]
  · rw [hw]
  · rw [hw]
  · intro h
    exact ⟨herr.trans h, hst h⟩

/-- Witness of C5: the dry run of the eviction intent is recorded as
"evict_pod_dryrun". -/
theorem reconcile_dispatch_success_witness :
    ∃ w : Containment,
      (Reconcile okCluster (some evictDryRunIntent)).writes = [w] ∧
      w.Status.State = "applied" ∧
      w.Status.Result = "evict_pod_dryrun" ∧
      (Reconcile okCluster (some evictDryRunIntent)).result =
        { Requeue := false, RequeueAfter := 0 } ∧
      (Reconcile okCluster (some evictDryRunIntent)).err = none ∧
      (Reconcile okCluster (some evictDryRunIntent)).store = some w := by
  obtain ⟨w, hwr, _, hstate, hresult, _, hres, _, hst⟩ :=
    reconcile_dispatch_success okCluster (some evictDryRunIntent) evictDryRunIntent rfl
      (by decide) (by norm_num [confidenceThreshold, evictDryRunIntent, evictIntent])
      (Or.inl ⟨rfl, Or.inr (Or.inl rfl)⟩)
  exact ⟨w, hwr, hstate, hresult, hres, (hst rfl).1, (hst rfl).2⟩

/-- C6. For every fetched, non-terminal intent with Confidence >= 0.7, DryRun
false, non-empty ApprovalToken and a known SuggestedAction, if the mapped
executor returns an error `e`, then `Reconcile` issues exactly one status
write, of the fetched object with State "failed" and Result "error: " followed
by the message of `e`, and returns the empty result (no redelivery) with the
error of that write, not that of the executor: nil when the write succeeds, and
then the written object is the stored one. -/
theorem reconcile_executor_error (k : Cluster) (store : Option Containment)
    (c : Containment) (e : GoError)
    (hfound : Get k store = .ok c)
    (hnt : c.Status.State ≠ "applied" ∧ c.Status.State ≠ "failed")
    (hconf : confidenceThreshold ≤ c.Spec.Confidence)
    (hdry : c.Spec.DryRun = false)
    (htok : c.Spec.ApprovalToken ≠ "")
    (hex : (c.Spec.SuggestedAction = "isolate_pod" ∧
          IsolateWithNetworkPolicy k (extractPodNamespace c.Spec.AlertID).1
            (extractPodNamespace c.Spec.AlertID).2 = some e) ∨
        (c.Spec.SuggestedAction = "evict_pod" ∧
          EvictPod k (extractPodNamespace c.Spec.AlertID).1
            (extractPodNamespace c.Spec.AlertID).2 = some e) ∨
        (c.Spec.SuggestedAction = "blackhole_traffic" ∧
          BlackholeViaIstio k (extractPodNamespace c.Spec.AlertID).1
            (extractPodNamespace c.Spec.AlertID).2 = some e)) :
    ∃ w : Containment,
      (Reconcile k store).writes = [w] ∧
      w.Spec = c.Spec ∧
      w.Status.State = "failed" ∧
      w.Status.Result = "error: " ++ e.Error ∧
      w.Status.LastUpdate = k.now ∧
      (Reconcile k store).result = { Requeue := false, RequeueAfter := 0 } ∧
      (Reconcile k store).err = k.statusUpdate w ∧
      (k.statusUpdate w = none →
        (Reconcile k store).err = none ∧ (Reconcile k store).store = some w) := by
  obtain ⟨call, hR⟩ := Reconcile_of_failure k store c e hfound hnt hconf hdry htok hex
  rw [hR]
  obtain ⟨w, hw, hres, _, hwr, herr, hst, _⟩ :=
    returnUpdateStatus_spec k store c [call] {} "failed" ("error: " ++ e.Error) hfound
  refine ⟨w, hwr, ?_, ?_, ?_, ?_, hres, herr, ?_⟩
  · rw [hw]
  · rw [hw]
  · rw [hw]
  · rw [hw]
  · intro h
    exact ⟨herr.trans h, hst h⟩

/-- Witness of C6: an eviction refused with "quota exceeded" is recorded as
"error: quota exceeded", with no redelivery and a nil error. -/
theorem reconcile_executor_error_witness :
    ∃ w : Containment,
      (Reconcile quotaCluster (some evictIntent)).writes = [w] ∧
      w.Status.State = "failed" ∧
      w.Status.Result = "error: quota exceeded" ∧
      (Reconcile quotaCluster (some evictIntent)).result =
        { Requeue := false, RequeueAfter := 0 } ∧
      (Reconcile quotaCluster (some evictIntent)).err = none ∧
      (Reconcile quotaCluster (some evictIntent)).store = some w := by
  obtain ⟨w, hwr, _, hstate, hresult, _, hres, _, hst⟩ :=
    reconcile_executor_error quotaCluster (some evictIntent) evictIntent
      (.other "quota exceeded") rfl
      (by decide) (by norm_num [confidenceThreshold, evictIntent]) rfl (by decide)
      (Or.inr (Or.inl ⟨rfl, rfl⟩))
  exact ⟨w, hwr, hstate, hresult, hres, (hst rfl).1, (hst rfl).2⟩

/-- C7. For every fetched, non-terminal intent that passes gating
(Confidence >= 0.7, and DryRun true or ApprovalToken non-empty) whose
SuggestedAction is none of "isolate_pod", "evict_pod", "blackhole_traffic",
`Reconcile` invokes no executor, issues exactly one status write, of the
fetched object with State "failed" and Result "unknown_action", and returns the
empty result (no requeue) with the error of that write; when the write succeeds
the error is nil and the written object is the stored one. -/
theorem reconcile_unknown_action (k : Cluster) (store : Option Containment)
    (c : Containment)
    (hfound : Get k store = .ok c)
    (hnt : c.Status.State ≠ "applied" ∧ c.Status.State ≠ "failed")
    (hconf : confidenceThreshold ≤ c.Spec.Confidence)
    (hgate : c.Spec.DryRun = true ∨ c.Spec.ApprovalToken ≠ "")
    (hact : c.Spec.SuggestedAction ≠ "isolate_pod" ∧ c.Spec.SuggestedAction ≠ "evict_pod" ∧
      c.Spec.SuggestedAction ≠ "blackhole_traffic") :
    ∃ w : Containment,
      (Reconcile k store).writes = [w] ∧
      w.Spec = c.Spec ∧
      w.Status.State = "failed" ∧
      w.Status.Result = "unknown_action" ∧
      w.Status.LastUpdate = k.now ∧
      (Reconcile k store).calls = [] ∧
      (Reconcile k store).result = { Requeue := false, RequeueAfter := 0 } ∧
      (Reconcile k store).err = k.statusUpdate w ∧
      (k.statusUpdate w = none →
        (Reconcile k store).err = none ∧ (Reconcile k store).store = some w) := by
  have hgate2 : ¬ (c.Spec.DryRun = false ∧ c.Spec.ApprovalToken = "") := by
    rcases hgate with h | h <;> simp [h]
  rw [Reconcile_of_gated k store c hfound (by tauto) (not_lt.mpr hconf) hgate2,
    if_neg hact.1, if_neg hact.2.1, if_neg hact.2.2]
  obtain ⟨w, hw, hres, hcalls, hwr, herr, hst, _⟩ :=
    returnUpdateStatus_spec k store c [] {} "failed" "unknown_action" hfound
  refine ⟨w, hwr, ?_, ?_, ?_, ?_, hcalls, hres, herr, ?_⟩
  · rw [hw]
  · rw [hw]
  · rw [hw]
  · rw [hw]
  · intro h
    exact ⟨herr.trans h, hst h⟩

/-- Witness of C7: an approved intent asking for "reboot_node". -/
theorem reconcile_unknown_action_witness :
    ∃ w : Containment,
      (Reconcile okCluster (some unknownActionIntent)).writes = [w] ∧
      w.Status.State = "failed" ∧
      w.Status.Result = "unknown_action" ∧
      (Reconcile okCluster (some unknownActionIntent)).calls = [] ∧
      (Reconcile okCluster (some unknownActionIntent)).result =
        { Requeue := false, RequeueAfter := 0 } ∧
      (Reconcile okCluster (some unknownActionIntent)).err = none ∧
      (Reconcile okCluster (some unknownActionIntent)).store = some w := by
  obtain ⟨w, hwr, _, hstate, hresult, _, hcalls, hres, _, hst⟩ :=
    reconcile_unknown_action okCluster (some unknownActionIntent) unknownActionIntent rfl
      (by decide) (by norm_num [confidenceThreshold, unknownActionIntent, evictIntent])
      (Or.inr (by decide)) (by decide)
  exact ⟨w, hwr, hstate, hresult, hcalls, hres, (hst rfl).1, (hst rfl).2⟩

/-- C9, as the code behaves. For every fetched, non-terminal intent whose
dispatch succeeds (Confidence >= 0.7, known action, and dry run or approved
execution whose executor returns no error), the status written by `Reconcile`
has State "applied", carries the action name, suffixed "_dryrun" when DryRun is
true, in its Result field, and has the AppliedAction field of the fetched
object, unchanged; when the write succeeds this is the stored status. -/
theorem reconcile_success_status (k : Cluster) (store : Option Containment)
    (c : Containment)
    (hfound : Get k store = .ok c)
    (hnt : c.Status.State ≠ "applied" ∧ c.Status.State ≠ "failed")
    (hconf : confidenceThreshold ≤ c.Spec.Confidence)
    (hok : (c.Spec.DryRun = true ∧
        (c.Spec.SuggestedAction = "isolate_pod" ∨ c.Spec.SuggestedAction = "evict_pod" ∨
          c.Spec.SuggestedAction = "blackhole_traffic")) ∨
      (c.Spec.DryRun = false ∧ c.Spec.ApprovalToken ≠ "" ∧
        ((c.Spec.SuggestedAction = "isolate_pod" ∧
            IsolateWithNetworkPolicy k (extractPodNamespace c.Spec.AlertID).1
              (extractPodNamespace c.Spec.AlertID).2 = none) ∨
          (c.Spec.SuggestedAction = "evict_pod" ∧
            EvictPod k (extractPodNamespace c.Spec.AlertID).1
              (extractPodNamespace c.Spec.AlertID).2 = none) ∨
          (c.Spec.SuggestedAction = "blackhole_traffic" ∧
            BlackholeViaIstio k (extractPodNamespace c.Spec.AlertID).1
              (extractPodNamespace c.Spec.AlertID).2 = none)))) :
    ∃ w : Containment,
      (Reconcile k store).writes = [w] ∧
      w.Status =
        { State := "applied"
          AppliedAction := c.Status.AppliedAction
          Result := (if c.Spec.DryRun = true then c.Spec.SuggestedAction ++ "_dryrun"
            else c.Spec.SuggestedAction)
          LastUpdate := k.now } ∧
      (k.statusUpdate w = none → (Reconcile k store).store = some w) := by
  obtain ⟨calls, hR⟩ := Reconcile_of_success k store c hfound hnt hconf hok
  rw [hR]
  obtain ⟨w, hw, _, _, hwr, _, hst, _⟩ :=
    returnUpdateStatus_spec k store c calls {} "applied"
      (if c.Spec.DryRun = true then c.Spec.SuggestedAction ++ "_dryrun"
        else c.Spec.SuggestedAction) hfound
  exact ⟨w, hwr, by rw [hw], hst⟩

/-- Witness of the amended C9: the approved eviction, with a successful
executor and status write. -/
theorem reconcile_success_status_witness :
    ∃ w : Containment,
      (Reconcile okCluster (some evictIntent)).writes = [w] ∧
      w.Status =
        { State := "applied", AppliedAction := "", Result := "evict_pod",
          LastUpdate := "2024-05-01T12:00:00Z" } ∧
      (Reconcile okCluster (some evictIntent)).store = some w := by
  obtain ⟨w, hwr, hstatus, hst⟩ :=
    reconcile_success_status okCluster (some evictIntent) evictIntent rfl
      (by decide) (by norm_num [confidenceThreshold, evictIntent])
      (Or.inr ⟨rfl, by decide, Or.inr (Or.inl ⟨rfl, rfl⟩)⟩)
  exact ⟨w, hwr, hstatus, hst rfl⟩

/-- Counterexample to C9 as stated: after the approved, non-dry-run eviction
succeeds, the stored status has State "applied" and Result "evict_pod", but its
AppliedAction is still empty, not "evict_pod". -/
theorem reconcile_appliedAction_counterexample :
    (Reconcile okCluster (some evictIntent)).calls = [.EvictPod "unknown" "default"] ∧
    (Reconcile okCluster (some evictIntent)).err = none ∧
    (Reconcile okCluster (some evictIntent)).store.map (fun c => c.Status) =
      some { State := "applied", AppliedAction := "", Result := "evict_pod",
             LastUpdate := "2024-05-01T12:00:00Z" } ∧
    (Reconcile okCluster (some evictIntent)).store.map (fun c => c.Status.AppliedAction) ≠
      some "evict_pod" := by
  have hconf : ¬ evictIntent.Spec.Confidence < confidenceThreshold := by
    norm_num [confidenceThreshold, evictIntent]
  have hR : Reconcile okCluster (some evictIntent) =
      finishDispatch okCluster (some evictIntent) evictIntent
        [.EvictPod "unknown" "default"] none "evict_pod" :=
    (Reconcile_of_executed okCluster (some evictIntent) evictIntent rfl (by decide)
      hconf rfl (by decide)).2.1 rfl
  rw [hR]
  exact ⟨rfl, rfl, rfl, by decide⟩

/-- C10. For every intent and every finite sequence of calls of `Reconcile` on
it, interleaved with arbitrary changes of its Spec from outside and in which
every status write succeeds, executors are invoked at most once in total; after
the first call of `Reconcile` that invokes an executor the stored State is
"applied" or "failed", whatever the executor returned, and every later call of
`Reconcile` invokes no executor, writes no status and leaves the store as it
is, the stored status staying the one that call left. -/
theorem run_invokes_at_most_once (c : Containment) (evs : List Event)
    (hw : ∀ k : Cluster, Event.reconcile k ∈ evs →
      ∀ x : Containment, k.statusUpdate x = none) :
    (run (some c) evs).2.length ≤ 1 ∧
    ∀ (pre : List Event) (k : Cluster) (post : List Event),
      evs = pre ++ Event.reconcile k :: post →
      (Reconcile k (run (some c) pre).1).calls ≠ [] →
      (∃ d : Containment,
        (run (some c) (pre ++ [Event.reconcile k])).1 = some d ∧
        (d.Status.State = "applied" ∨ d.Status.State = "failed")) ∧
      ∀ (mid : List Event) (k2 : Cluster) (post2 : List Event),
        post = mid ++ Event.reconcile k2 :: post2 →
        (Reconcile k2 (run (some c) (pre ++ Event.reconcile k :: mid)).1).calls = [] ∧
        (Reconcile k2 (run (some c) (pre ++ Event.reconcile k :: mid)).1).writes = [] ∧
        (Reconcile k2 (run (some c) (pre ++ Event.reconcile k :: mid)).1).store =
          (run (some c) (pre ++ Event.reconcile k :: mid)).1 ∧
        (run (some c) (pre ++ Event.reconcile k :: mid)).1.map (fun x => x.Status) =
          (run (some c) (pre ++ [Event.reconcile k])).1.map (fun x => x.Status) := by
  refine ⟨run_calls_length_le_one evs (some c) hw, ?_⟩
  intro pre k post hevs hne
  have hk : ∀ x : Containment, k.statusUpdate x = none :=
    hw k (by rw [hevs]; simp)
  have hT : Terminal (run (some c) (pre ++ [Event.reconcile k])).1 := by
    have h1 : (run (some c) (pre ++ [Event.reconcile k])).1 =
        (Reconcile k (run (some c) pre).1).store := by
      simp [run, List.foldl_append, step]
    rw [h1]
    exact Reconcile_Terminal_of_calls k _ hk hne
  refine ⟨hT, ?_⟩
  intro mid k2 post2 _
  have h2 : run (some c) (pre ++ Event.reconcile k :: mid) =
      mid.foldl step (run (some c) (pre ++ [Event.reconcile k])) := by
    simp [run, List.foldl_append]
  obtain ⟨g1, _, g3⟩ := foldl_step_of_Terminal mid _ hT
  rw [h2]
  obtain ⟨n1, n2, n3⟩ := Reconcile_noop_of_Terminal k2 _ g1
  exact ⟨n1, n2, n3, g3⟩

/-- Witness of C10: the approved eviction fails with "quota exceeded"; the Spec
is then changed into a dry run and the intent reconciled again. One executor
call is made in all, the first reconciliation leaves a terminal state, and the
second one invokes nothing. -/
theorem run_invokes_at_most_once_witness :
    (run (some evictIntent)
      [Event.reconcile quotaCluster, Event.specChange evictDryRunIntent.Spec,
        Event.reconcile okCluster]).2.length ≤ 1 ∧
    (∃ d : Containment,
      (run (some evictIntent) ([] ++ [Event.reconcile quotaCluster])).1 = some d ∧
      (d.Status.State = "applied" ∨ d.Status.State = "failed")) ∧
    (Reconcile okCluster
      (run (some evictIntent)
        ([] ++ Event.reconcile quotaCluster ::
          [Event.specChange evictDryRunIntent.Spec])).1).calls = [] := by
  have hw : ∀ k : Cluster,
      Event.reconcile k ∈
        [Event.reconcile quotaCluster, Event.specChange evictDryRunIntent.Spec,
          Event.reconcile okCluster] →
      ∀ x : Containment, k.statusUpdate x = none := by
    intro k hk x
    simp only [List.mem_cons, Event.reconcile.injEq, List.mem_singleton, reduceCtorEq,
      false_or, List.not_mem_nil, or_false] at hk
    rcases hk with h | h <;> subst h <;> rfl
  have hconf : ¬ evictIntent.Spec.Confidence < confidenceThreshold := by
    norm_num [confidenceThreshold, evictIntent]
  have hR : Reconcile quotaCluster (some evictIntent) =
      finishDispatch quotaCluster (some evictIntent) evictIntent
        [.EvictPod "unknown" "default"] (some (.other "quota exceeded")) "evict_pod" :=
    (Reconcile_of_executed quotaCluster (some evictIntent) evictIntent rfl (by decide)
      hconf rfl (by decide)).2.1 rfl
  have hne : (Reconcile quotaCluster (run (some evictIntent) []).1).calls ≠ [] := by
    have h0 : (run (some evictIntent) []).1 = some evictIntent := rfl
    rw [h0, hR]
    exact List.cons_ne_nil _ _
  have h := run_invokes_at_most_once evictIntent
    [Event.reconcile quotaCluster, Event.specChange evictDryRunIntent.Spec,
      Event.reconcile okCluster] hw
  obtain ⟨hT, hlater⟩ :=
    h.2 [] quotaCluster [Event.specChange evictDryRunIntent.Spec, Event.reconcile okCluster]
      rfl hne
  exact ⟨h.1, hT, (hlater [Event.specChange evictDryRunIntent.Spec] okCluster [] rfl).1⟩

end ZeroDay
